import Mathlib

/-!
Verification of the dashboard catalog
(`x-pack/plugins/observability_solution/apm/public/components/app/metrics/static_dashboard/dashboards/dashboard_catalog.ts`)
and of the log rate analysis results component
(`x-pack/plugins/aiops/public/components/log_rate_analysis/log_rate_analysis_results.tsx`).

The TypeScript source is shallowly embedded: the record
`AGENT_NAME_DASHBOARD_FILE_MAPPING` becomes an association list, the
`switch`-based loader `loadDashboardFile` becomes a function into
`Option DashboardModule` (the `default: break` branch of the `async`
function resolves the promise to `undefined`, embedded as `none`), and the
React component's handlers and effects become explicit state-passing
functions that also return the list of store actions they dispatch.
-/

/-- The record `AGENT_NAME_DASHBOARD_FILE_MAPPING : Record<string, string>`,
embedded as an association list in source order. -/
def AGENT_NAME_DASHBOARD_FILE_MAPPING : List (String × String) :=
  [ ("nodejs", "nodejs"),
    ("opentelemetry/nodejs", "opentelemetry_nodejs"),
    ("java", "java"),
    ("opentelemetry/java", "opentelemetry_java"),
    ("opentelemetry/java/opentelemetry-java-instrumentation", "opentelemetry_java"),
    ("opentelemetry/java/elastic", "opentelemetry_java"),
    ("opentelemetry/dotnet", "opentelemetry_dotnet"),
    ("opentelemetry/dotnet/opentelemetry-dotnet-instrumentation", "opentelemetry_dotnet"),
    ("opentelemetry/dotnet/elastic", "opentelemetry_dotnet") ]

/-- Property access `AGENT_NAME_DASHBOARD_FILE_MAPPING[key]` on the record:
`undefined` for absent keys is embedded as `none`. -/
def agentNameDashboardFileLookup (key : String) : Option String :=
  AGENT_NAME_DASHBOARD_FILE_MAPPING.lookup key

/-- The keys of the record, in source order. -/
def mappingKeys : List String := AGENT_NAME_DASHBOARD_FILE_MAPPING.map Prod.fst

/-- The values of the record, in source order. -/
def mappingValues : List String := AGENT_NAME_DASHBOARD_FILE_MAPPING.map Prod.snd

/-- A dynamically imported dashboard JSON module: a `return import(...)`
expression of `loadDashboardFile`, identified by its webpack chunk name
(from the magic comment) and its module path. -/
structure DashboardModule where
  chunkName : String
  path : String
deriving DecidableEq

/-- `loadDashboardFile(filename)`: the `switch` on `filename`. Each named
case resolves to the dynamic import of the JSON module; the `default`
branch just breaks, so the `async` function resolves to `undefined`
(`none` here). -/
def loadDashboardFile (filename : String) : Option DashboardModule :=
  if filename = "nodejs" then
    some { chunkName := "lazyNodeJsDashboard", path := "./nodejs.json" }
  else if filename = "opentelemetry_nodejs" then
    some { chunkName := "lazyNodeJsDashboard", path := "./opentelemetry_nodejs.json" }
  else if filename = "java" then
    some { chunkName := "lazyJavaDashboard", path := "./java.json" }
  else if filename = "opentelemetry_java" then
    some { chunkName := "lazyJavaDashboard", path := "./opentelemetry_java.json" }
  else if filename = "opentelemetry_dotnet" then
    some { chunkName := "lazyOtelDotnetDashboard", path := "./opentelemetry_dotnet.json" }
  else
    none

/-- The five filenames handled by a non-default case of `loadDashboardFile`. -/
def dashboardFilenames : List String :=
  ["nodejs", "opentelemetry_nodejs", "java", "opentelemetry_java", "opentelemetry_dotnet"]

/-- C1: the catalog `AGENT_NAME_DASHBOARD_FILE_MAPPING` has exactly the nine
agent-identifier keys listed in the spec, maps each of them exactly as
stated, and its set of values is exactly the five bundle names `nodejs`,
`opentelemetry_nodejs`, `java`, `opentelemetry_java`,
`opentelemetry_dotnet`. -/
theorem C1_agent_dashboard_mapping_exact :
    mappingKeys =
      [ "nodejs", "opentelemetry/nodejs", "java", "opentelemetry/java",
        "opentelemetry/java/opentelemetry-java-instrumentation",
        "opentelemetry/java/elastic", "opentelemetry/dotnet",
        "opentelemetry/dotnet/opentelemetry-dotnet-instrumentation",
        "opentelemetry/dotnet/elastic" ] ∧
    agentNameDashboardFileLookup "nodejs" = some "nodejs" ∧
    agentNameDashboardFileLookup "opentelemetry/nodejs" = some "opentelemetry_nodejs" ∧
    agentNameDashboardFileLookup "java" = some "java" ∧
    agentNameDashboardFileLookup "opentelemetry/java" = some "opentelemetry_java" ∧
    agentNameDashboardFileLookup "opentelemetry/java/opentelemetry-java-instrumentation" =
      some "opentelemetry_java" ∧
    agentNameDashboardFileLookup "opentelemetry/java/elastic" = some "opentelemetry_java" ∧
    agentNameDashboardFileLookup "opentelemetry/dotnet" = some "opentelemetry_dotnet" ∧
    agentNameDashboardFileLookup "opentelemetry/dotnet/opentelemetry-dotnet-instrumentation" =
      some "opentelemetry_dotnet" ∧
    agentNameDashboardFileLookup "opentelemetry/dotnet/elastic" = some "opentelemetry_dotnet" ∧
    mappingValues.dedup = dashboardFilenames := by
  decide

/-- C2: every filename outside the five bundle names resolves to no
dashboard (`loadDashboardFile` hits the default branch and the promise
resolves to `undefined`), and every agent identifier outside the nine
mapped keys has no entry in `AGENT_NAME_DASHBOARD_FILE_MAPPING`. -/
theorem C2_unrecognized_resolves_none (filename agentName : String)
    (hf : filename ∉ dashboardFilenames) (ha : agentName ∉ mappingKeys) :
    loadDashboardFile filename = none ∧
    agentNameDashboardFileLookup agentName = none := by
  simp only [dashboardFilenames, List.mem_cons, List.not_mem_nil, or_false, not_or] at hf
  obtain ⟨h1, h2, h3, h4, h5⟩ := hf
  simp only [mappingKeys, AGENT_NAME_DASHBOARD_FILE_MAPPING, List.map_cons, List.map_nil,
    List.mem_cons, List.not_mem_nil, or_false, not_or] at ha
  obtain ⟨g1, g2, g3, g4, g5, g6, g7, g8, g9⟩ := ha
  refine ⟨?_, ?_⟩
  · simp [loadDashboardFile, h1, h2, h3, h4, h5]
  · have b1 := beq_eq_false_iff_ne.mpr g1
    have b2 := beq_eq_false_iff_ne.mpr g2
    have b3 := beq_eq_false_iff_ne.mpr g3
    have b4 := beq_eq_false_iff_ne.mpr g4
    have b5 := beq_eq_false_iff_ne.mpr g5
    have b6 := beq_eq_false_iff_ne.mpr g6
    have b7 := beq_eq_false_iff_ne.mpr g7
    have b8 := beq_eq_false_iff_ne.mpr g8
    have b9 := beq_eq_false_iff_ne.mpr g9
    simp [agentNameDashboardFileLookup, AGENT_NAME_DASHBOARD_FILE_MAPPING, List.lookup,
      b1, b2, b3, b4, b5, b6, b7, b8, b9]

/-- Witness for C2 at the concrete unrecognized filename `"python"` and
agent identifier `"python"`. -/
theorem C2_unrecognized_resolves_none_witness :
    loadDashboardFile "python" = none ∧
    agentNameDashboardFileLookup "python" = none :=
  C2_unrecognized_resolves_none "python" "python" (by decide) (by decide)

/-- C7: each of the five bundle filenames makes `loadDashboardFile` return
the lazily imported dashboard JSON module of the same name. -/
theorem C7_load_dashboard_files :
    loadDashboardFile "nodejs" =
      some { chunkName := "lazyNodeJsDashboard", path := "./nodejs.json" } ∧
    loadDashboardFile "opentelemetry_nodejs" =
      some { chunkName := "lazyNodeJsDashboard", path := "./opentelemetry_nodejs.json" } ∧
    loadDashboardFile "java" =
      some { chunkName := "lazyJavaDashboard", path := "./java.json" } ∧
    loadDashboardFile "opentelemetry_java" =
      some { chunkName := "lazyJavaDashboard", path := "./opentelemetry_java.json" } ∧
    loadDashboardFile "opentelemetry_dotnet" =
      some { chunkName := "lazyOtelDotnetDashboard", path := "./opentelemetry_dotnet.json" } := by
  decide

/-- C8: every value of the catalog is one of the filenames handled by a
non-default case of `loadDashboardFile`, so the composition
`loadDashboardFile(AGENT_NAME_DASHBOARD_FILE_MAPPING[key])` never reaches
the default (no-dashboard) branch for a catalogued agent identifier. -/
theorem C8_mapping_values_loadable :
    ∀ p ∈ AGENT_NAME_DASHBOARD_FILE_MAPPING, (loadDashboardFile p.2).isSome = true := by
  decide

/-- Witness for C8 at the concrete catalog entry for `"opentelemetry/java"`. -/
theorem C8_mapping_values_loadable_witness :
    (loadDashboardFile "opentelemetry_java").isSome = true :=
  C8_mapping_values_loadable ("opentelemetry/java", "opentelemetry_java") (by decide)

/-! ### Log rate analysis results component -/

/-- The analysis type union `LogRateAnalysisType` (`'spike' | 'dip'`). -/
inductive LogRateAnalysisType where
  | spike
  | dip
deriving DecidableEq

/-- Window parameters of the dual brush: baseline and deviation time ranges. -/
structure WindowParameters where
  baselineMin : Nat
  baselineMax : Nat
  deviationMin : Nat
  deviationMax : Nat
deriving DecidableEq

/-- Modelled from the spec: `getSwappedWindowParameters` lives in the package
`@kbn/aiops-log-rate-analysis`, which is part of this repository but not under
the provided sources; per the spec it produces the window parameters "with
baseline and deviation windows swapped". -/
def getSwappedWindowParameters (w : WindowParameters) : WindowParameters :=
  { baselineMin := w.deviationMin
    baselineMax := w.deviationMax
    deviationMin := w.baselineMin
    deviationMax := w.baselineMax }

/-- A statistically significant field/value item (opaque payload: only
identity matters to the component logic verified here). -/
structure SignificantItem where
  fieldName : String
  fieldValue : String
deriving DecidableEq

/-- The `overrides` object of `AiopsLogRateAnalysisSchema`: every field is
optional; an absent field is `none`. `loaded` is the progress fraction. -/
structure Overrides where
  loaded : Option ℚ := none
  remainingKeywordFieldCandidates : Option (List String) := none
  remainingTextFieldCandidates : Option (List String) := none
  significantItems : Option (List SignificantItem) := none
  regroupOnly : Option Bool := none
deriving DecidableEq

/-- The slice `s.logRateAnalysisResults` of the state store that the
component reads (`data`): progress fraction, optional remaining candidate
arrays, the `groupsMissing` flag, the significant items and the errors. -/
structure ResultsData where
  loaded : ℚ
  remainingKeywordFieldCandidates : Option (List String)
  remainingTextFieldCandidates : Option (List String)
  groupsMissing : Bool
  significantItems : List SignificantItem
  errors : List String

/-- `Array.isArray(x) && x.length > 0` where `x` may be `undefined`. -/
def isNonEmptyArray (o : Option (List String)) : Bool :=
  match o with
  | some l => l.length > 0
  | none => false

/-- The effect hooked on `isRunning` (lines 249-291): when the stream is no
longer running, either capture the current partial results into `overrides`
(when `loaded < 1` and remaining candidates or missing groups exist) or,
when `loaded > 0`, reset `overrides` to `undefined`; otherwise leave
`overrides` untouched. Returns the new value of the `overrides` state. -/
def onAnalysisStopEffect (isRunning : Bool) (data : ResultsData)
    (overrides : Option Overrides) : Option Overrides :=
  if isRunning then overrides
  else if data.loaded < 1 ∧
      (isNonEmptyArray data.remainingKeywordFieldCandidates = true ∨
       isNonEmptyArray data.remainingTextFieldCandidates = true ∨
       data.groupsMissing = true) then
    some { loaded := some data.loaded
           remainingKeywordFieldCandidates := data.remainingKeywordFieldCandidates
           remainingTextFieldCandidates := data.remainingTextFieldCandidates
           significantItems := some data.significantItems
           regroupOnly := none }
  else if data.loaded > 0 then
    none
  else
    overrides

/-- `const errors = useMemo(() => [...streamErrors, ...data.errors], ...)`. -/
def componentErrors (streamErrors dataErrors : List String) : List String :=
  streamErrors ++ dataErrors

/-- The body of the error callout: a single error is rendered as a
paragraph, several errors as a list with one entry per error. -/
inductive ErrorDisplay where
  | paragraph (e : String)
  | list (es : List String)
deriving DecidableEq

/-- The rendered `EuiCallOut` for errors: its body and whether the
"Try to continue analysis" button is present. -/
structure ErrorCallout where
  display : ErrorDisplay
  tryToContinueButton : Bool
deriving DecidableEq

/-- The conditional rendering of the error callout (lines 500-541):
rendered only when `errors.length > 0`; inside it, one error renders as a
paragraph and several as a list, and the "Try to continue analysis" button
is present exactly when `overrides !== undefined`. -/
def renderErrorCallout (streamErrors dataErrors : List String)
    (overrides : Option Overrides) : Option ErrorCallout :=
  let errs := componentErrors streamErrors dataErrors
  if errs.length > 0 then
    some { display :=
             match errs with
             | [e] => ErrorDisplay.paragraph e
             | es => ErrorDisplay.list es
           tryToContinueButton := overrides.isSome }
  else
    none

/-- The `id` constant `resultsGroupedOffId`. -/
def resultsGroupedOffId : String := "aiopsLogRateAnalysisGroupingOff"

/-- The `id` constant `resultsGroupedOnId`. -/
def resultsGroupedOnId : String := "aiopsLogRateAnalysisGroupingOn"

/-- The request body of `startParams` (lines 335-351): the spread of the
window parameters is kept as one `windowParameters` field, and fields the
component copies verbatim (`searchQuery`, `timeFieldName`, `index`,
`grouping`, `flushFix`, `overrides`, `sampleProbability`) are carried
along. -/
structure StartParamsBody where
  start : Nat
  «end» : Nat
  searchQuery : String
  timeFieldName : String
  index : String
  grouping : Bool
  flushFix : Bool
  windowParameters : WindowParameters
  overrides : Option Overrides
  sampleProbability : ℚ
deriving DecidableEq

/-- An action dispatched to the state store or performed on the abort
controller by the component's handlers. -/
inductive StoreAction where
  | resetResults
  | clearAllRowState
  | setCurrentAnalysisType (t : LogRateAnalysisType)
  | setCurrentAnalysisWindowParameters (w : Option WindowParameters)
  | cancelStream
  | fetchFieldCandidates
  | startStream (p : StartParamsBody)
  | abortRequest
deriving DecidableEq

/-- The component state touched by the verified handlers: the grouping
toggle, the `overrides` state, the `shouldStart` flag and the
`skippedFields` state (whose `null` uninitialized marker is `none`). -/
structure ComponentState where
  groupResults : Bool
  toggleIdSelected : String
  overrides : Option Overrides
  shouldStart : Bool
  skippedFields : Option (List String)
deriving DecidableEq

/-- The store-derived inputs the handlers close over: the field candidate
lists, the analysis type and the chart window parameters. -/
structure HandlerEnv where
  keywordFieldCandidates : List String
  textFieldCandidates : List String
  analysisType : LogRateAnalysisType
  chartWindowParameters : Option WindowParameters

/-- The filter predicate of `startHandler`:
`(d) => skippedFields === null || !skippedFields.includes(d)`. -/
def notSkipped (skippedFields : Option (List String)) (d : String) : Bool :=
  match skippedFields with
  | none => true
  | some sf => !(sf.contains d)

/-- `startHandler(continueAnalysis, resetGroupButton)` (lines 297-323):
when not continuing, dispatch `resetResults` and set `overrides` to the
candidate lists filtered by the current `skippedFields`; when resetting the
group button, clear the grouping state and dispatch `clearAllRowState`;
always dispatch the current analysis type and window parameters and set
`shouldStart`. Returns the new state and the dispatched actions in order. -/
def startHandler (env : HandlerEnv) (continueAnalysis resetGroupButton : Bool)
    (s : ComponentState) : ComponentState × List StoreAction :=
  let restartOverrides : Overrides :=
    { remainingKeywordFieldCandidates :=
        some (env.keywordFieldCandidates.filter (notSkipped s.skippedFields))
      remainingTextFieldCandidates :=
        some (env.textFieldCandidates.filter (notSkipped s.skippedFields)) }
  let (s1, acts1) :=
    if !continueAnalysis then
      ({ s with overrides := some restartOverrides }, [StoreAction.resetResults])
    else (s, [])
  let (s2, acts2) :=
    if resetGroupButton then
      ({ s1 with groupResults := false, toggleIdSelected := resultsGroupedOffId },
       [StoreAction.clearAllRowState])
    else (s1, [])
  ({ s2 with shouldStart := true },
   acts1 ++ acts2 ++
     [StoreAction.setCurrentAnalysisType env.analysisType,
      StoreAction.setCurrentAnalysisWindowParameters env.chartWindowParameters])

/-- `onFieldsFilterChange(skippedFieldsUpdate)` (lines 224-238): dispatch
`resetResults`, record the skipped fields, set `overrides` with
`loaded: 0`, the candidate lists filtered by the update and
`regroupOnly: false`, then call `startHandler(true, false)`. -/
def onFieldsFilterChange (env : HandlerEnv) (skippedFieldsUpdate : List String)
    (s : ComponentState) : ComponentState × List StoreAction :=
  let s1 := { s with
    skippedFields := some skippedFieldsUpdate
    overrides := some
      { loaded := some 0
        remainingKeywordFieldCandidates :=
          some (env.keywordFieldCandidates.filter (fun d => !(skippedFieldsUpdate.contains d)))
        remainingTextFieldCandidates :=
          some (env.textFieldCandidates.filter (fun d => !(skippedFieldsUpdate.contains d)))
        regroupOnly := some false } }
  let (s2, acts) := startHandler env true false s1
  (s2, StoreAction.resetResults :: acts)

/-- The mutable `abortCtrl.current` of the component: an `AbortController`
whose signal is handed to the external streaming client. -/
structure AbortControllerState where
  aborted : Bool
deriving DecidableEq

/-- `cancelHandler()` (lines 244-247): call `abortCtrl.current.abort()` and
dispatch `cancelStream()`. Returns the new controller state and the
dispatched store actions. -/
def cancelHandler (c : AbortControllerState) : AbortControllerState × List StoreAction :=
  ({ c with aborted := true }, [StoreAction.cancelStream])

/-- JS truthiness of an optional number (`!earliest` is also true at `0`). -/
def numTruthy (o : Option Nat) : Bool :=
  match o with
  | none => false
  | some n => n ≠ 0

/-- The `startParams` memo (lines 325-365): `undefined` when
`chartWindowParameters`, `earliest` or `latest` is falsy; otherwise the
request body, with the window parameters passed as-is for a `spike`
analysis and swapped via `getSwappedWindowParameters` for a `dip`. -/
def startParams (analysisType : LogRateAnalysisType)
    (chartWindowParameters : Option WindowParameters)
    (earliest latest : Option Nat) (searchQuery : String)
    (timeFieldName : Option String) (index : String)
    (overrides : Option Overrides) (sampleProbability : ℚ) :
    Option StartParamsBody :=
  match chartWindowParameters, earliest, latest with
  | some w, some e, some l =>
    if e = 0 ∨ l = 0 then none
    else
      some { start := e
             «end» := l
             searchQuery := searchQuery
             timeFieldName := timeFieldName.getD ""
             index := index
             grouping := true
             flushFix := true
             windowParameters :=
               if analysisType = LogRateAnalysisType.spike then w
               else getSwappedWindowParameters w
             overrides := overrides
             sampleProbability := sampleProbability }
  | _, _, _ => none

/-- The effect hooked on `shouldStart` (lines 367-373): the stream is
started only when `shouldStart` is set and `startParams` is defined, and
`shouldStart` is then cleared. Returns the new `shouldStart` flag and the
dispatched actions. -/
def startStreamEffect (shouldStart : Bool) (params : Option StartParamsBody) :
    Bool × List StoreAction :=
  if shouldStart then
    match params with
    | some p => (false, [StoreAction.startStream p])
    | none => (shouldStart, [])
  else (shouldStart, [])

/-- The initial value of the `skippedFields` state:
`useState<string[] | null>(null)`. -/
def skippedFieldsInitialState : Option (List String) := none

/-- The effect hooked on `fieldFilterSkippedItems` (lines 219-222): set the
skipped fields only while `skippedFields` is still `null` and the incoming
list is non-empty. Returns the new `skippedFields` state. -/
def initSkippedFieldsEffect (skippedFields : Option (List String))
    (fieldFilterSkippedItems : List String) : Option (List String) :=
  if skippedFields = none ∧ fieldFilterSkippedItems.length > 0 then
    some fieldFilterSkippedItems
  else skippedFields

/-- C3: when the stream stops running with `loaded < 1` and non-empty
remaining keyword or text candidates or missing groups, the effect sets
`overrides` to the current partial results
(`loaded`, the remaining candidate arrays and the significant items) so a
subsequent start can resume incrementally; otherwise, when `loaded > 0`,
it resets `overrides` to `undefined`. -/
theorem C3_stop_effect_overrides (data : ResultsData) (ov : Option Overrides) :
    (data.loaded < 1 ∧
        (isNonEmptyArray data.remainingKeywordFieldCandidates = true ∨
         isNonEmptyArray data.remainingTextFieldCandidates = true ∨
         data.groupsMissing = true) →
      onAnalysisStopEffect false data ov =
        some { loaded := some data.loaded,
               remainingKeywordFieldCandidates := data.remainingKeywordFieldCandidates,
               remainingTextFieldCandidates := data.remainingTextFieldCandidates,
               significantItems := some data.significantItems,
               regroupOnly := none }) ∧
    (¬(data.loaded < 1 ∧
        (isNonEmptyArray data.remainingKeywordFieldCandidates = true ∨
         isNonEmptyArray data.remainingTextFieldCandidates = true ∨
         data.groupsMissing = true)) → data.loaded > 0 →
      onAnalysisStopEffect false data ov = none) := by
  constructor
  · intro h
    unfold onAnalysisStopEffect
    rw [if_neg (by simp), if_pos h]
  · intro h h2
    unfold onAnalysisStopEffect
    rw [if_neg (by simp), if_neg h, if_pos h2]

/-- Concrete partial result data: the analysis stopped at `loaded = 0`
with one remaining keyword field candidate. -/
def samplePartialData : ResultsData :=
  { loaded := 0
    remainingKeywordFieldCandidates := some ["field_a"]
    remainingTextFieldCandidates := none
    groupsMissing := false
    significantItems := []
    errors := [] }

/-- Witness for C3 at `samplePartialData`. -/
theorem C3_stop_effect_overrides_witness :
    onAnalysisStopEffect false samplePartialData none =
      some { loaded := some samplePartialData.loaded,
             remainingKeywordFieldCandidates := samplePartialData.remainingKeywordFieldCandidates,
             remainingTextFieldCandidates := samplePartialData.remainingTextFieldCandidates,
             significantItems := some samplePartialData.significantItems,
             regroupOnly := none } :=
  (C3_stop_effect_overrides samplePartialData none).1 (by constructor <;> decide)

/-- C4: the errors surfaced in the callout are exactly the stream errors
followed by the result data's errors; the callout is rendered iff this
combined list is non-empty; a single error renders as a paragraph,
several as a list over the whole combined list; and the
"Try to continue analysis" button is offered exactly when `overrides` is
defined. -/
theorem C4_error_callout (streamErrors dataErrors : List String) (ov : Option Overrides) :
    componentErrors streamErrors dataErrors = streamErrors ++ dataErrors ∧
    ((renderErrorCallout streamErrors dataErrors ov).isSome = true ↔
      componentErrors streamErrors dataErrors ≠ []) ∧
    (∀ c, renderErrorCallout streamErrors dataErrors ov = some c →
      c.tryToContinueButton = ov.isSome ∧
      ((∃ e, componentErrors streamErrors dataErrors = [e] ∧
          c.display = ErrorDisplay.paragraph e) ∨
        ((componentErrors streamErrors dataErrors).length ≥ 2 ∧
          c.display = ErrorDisplay.list (componentErrors streamErrors dataErrors)))) := by
  refine ⟨rfl, ?_, ?_⟩
  · unfold renderErrorCallout
    cases h : componentErrors streamErrors dataErrors with
    | nil => simp [h]
    | cons a t => simp [h]
  · intro c hc
    unfold renderErrorCallout at hc
    rcases h : componentErrors streamErrors dataErrors with _ | ⟨a, _ | ⟨b, t⟩⟩
    · rw [h] at hc
      simp at hc
    · rw [h] at hc
      simp only [List.length_cons, List.length_nil, gt_iff_lt, Nat.zero_lt_succ,
        if_true, Option.some.injEq] at hc
      subst hc
      exact ⟨rfl, Or.inl ⟨a, rfl, rfl⟩⟩
    · rw [h] at hc
      simp only [List.length_cons, gt_iff_lt, Nat.zero_lt_succ, if_true,
        Option.some.injEq] at hc
      subst hc
      refine ⟨rfl, Or.inr ⟨?_, rfl⟩⟩
      simp
/-- Witness for C4 at two concrete error lists and defined overrides. -/
theorem C4_error_callout_witness :
    componentErrors ["stream error"] ["data error"] = ["stream error", "data error"] ∧
    (renderErrorCallout ["stream error"] ["data error"] (some {})).isSome = true ∧
    (renderErrorCallout ["stream error"] ["data error"] (some {}) =
      some { display := ErrorDisplay.list ["stream error", "data error"],
             tryToContinueButton := true }) := by
  have h := C4_error_callout ["stream error"] ["data error"] (some {})
  exact ⟨h.1, h.2.1.mpr (by decide), rfl⟩

/-- C5: applying a field-filter change with skipped set `S` records `S` as
the skipped fields, sets `overrides` with `loaded = 0`,
`regroupOnly = false` and the candidate lists with every member of `S`
removed, dispatches `resetResults` and restarts the analysis in continue
mode (`shouldStart` is set) without resetting the grouping toggle (the
grouping state is unchanged and no `clearAllRowState` is dispatched). -/
theorem C5_fields_filter_change (env : HandlerEnv) (S : List String)
    (s : ComponentState) :
    (onFieldsFilterChange env S s).1 =
      { groupResults := s.groupResults,
        toggleIdSelected := s.toggleIdSelected,
        overrides := some
          { loaded := some 0,
            remainingKeywordFieldCandidates :=
              some (env.keywordFieldCandidates.filter (fun d => !(S.contains d))),
            remainingTextFieldCandidates :=
              some (env.textFieldCandidates.filter (fun d => !(S.contains d))),
            significantItems := none,
            regroupOnly := some false },
        shouldStart := true,
        skippedFields := some S } ∧
    (onFieldsFilterChange env S s).2 =
      [StoreAction.resetResults,
       StoreAction.setCurrentAnalysisType env.analysisType,
       StoreAction.setCurrentAnalysisWindowParameters env.chartWindowParameters] :=
  ⟨rfl, rfl⟩

/-- C6: the cancel handler aborts the in-flight request through the abort
controller whose signal is handed to the external streaming client, and
dispatches `cancelStream` to the state store — and performs nothing else. -/
theorem C6_cancel_handler (c : AbortControllerState) :
    (cancelHandler c).1.aborted = true ∧
    (cancelHandler c).2 = [StoreAction.cancelStream] :=
  ⟨rfl, rfl⟩

/-- C9: `startParams` is `undefined` whenever `chartWindowParameters`,
`earliest` or `latest` is missing — in which case no stream is started —
and otherwise carries the chart window parameters unchanged for a
`spike` analysis and swapped via `getSwappedWindowParameters` for a
`dip`. -/
theorem C9_start_params (analysisType : LogRateAnalysisType)
    (cwp : Option WindowParameters) (earliest latest : Option Nat)
    (searchQuery : String) (timeFieldName : Option String) (index : String)
    (ov : Option Overrides) (sampleProbability : ℚ) (shouldStart : Bool) :
    ((cwp = none ∨ earliest = none ∨ latest = none) →
      startParams analysisType cwp earliest latest searchQuery timeFieldName
          index ov sampleProbability = none ∧
      (startStreamEffect shouldStart
        (startParams analysisType cwp earliest latest searchQuery timeFieldName
          index ov sampleProbability)).2 = []) ∧
    (∀ w e l body, cwp = some w → earliest = some e → latest = some l →
      startParams analysisType cwp earliest latest searchQuery timeFieldName
          index ov sampleProbability = some body →
      (analysisType = LogRateAnalysisType.spike → body.windowParameters = w) ∧
      (analysisType = LogRateAnalysisType.dip →
        body.windowParameters = getSwappedWindowParameters w) ∧
      body.start = e ∧ body.«end» = l ∧ body.overrides = ov) := by
  constructor
  · intro h
    have hnone : startParams analysisType cwp earliest latest searchQuery
        timeFieldName index ov sampleProbability = none := by
      unfold startParams
      rcases h with h | h | h
      · subst h
        cases earliest <;> cases latest <;> rfl
      · subst h
        cases cwp <;> cases latest <;> rfl
      · subst h
        cases cwp <;> cases earliest <;> rfl
    rw [hnone]
    refine ⟨rfl, ?_⟩
    unfold startStreamEffect
    cases shouldStart <;> rfl
  · intro w e l body hw he hl hbody
    subst hw he hl
    simp only [startParams] at hbody
    by_cases hz : e = 0 ∨ l = 0
    · rw [if_pos hz] at hbody
      exact absurd hbody (by simp)
    · rw [if_neg hz, Option.some.injEq] at hbody
      subst hbody
      refine ⟨?_, ?_, rfl, rfl, rfl⟩
      · intro hsp
        simp [hsp]
      · intro hdip
        subst hdip
        simp

/-- Concrete window parameters for the C9 witness. -/
def sampleWindow : WindowParameters :=
  { baselineMin := 0, baselineMax := 5, deviationMin := 6, deviationMax := 9 }

/-- The request body `startParams` builds for the C9 witness inputs. -/
def sampleBody : StartParamsBody :=
  { start := 10, «end» := 20, searchQuery := "q", timeFieldName := "",
    index := "logs", grouping := true, flushFix := true,
    windowParameters := sampleWindow, overrides := none, sampleProbability := 1 }

/-- Witness for C9: a missing `earliest` yields no start parameters and no
started stream, and concrete spike inputs keep the window unchanged. -/
theorem C9_start_params_witness :
    (startParams LogRateAnalysisType.dip (some sampleWindow) none (some 20)
        "q" none "logs" none 1 = none ∧
      (startStreamEffect true
        (startParams LogRateAnalysisType.dip (some sampleWindow) none (some 20)
          "q" none "logs" none 1)).2 = []) ∧
    ((LogRateAnalysisType.spike = LogRateAnalysisType.spike →
        sampleBody.windowParameters = sampleWindow) ∧
      (LogRateAnalysisType.spike = LogRateAnalysisType.dip →
        sampleBody.windowParameters = getSwappedWindowParameters sampleWindow) ∧
      sampleBody.start = 10 ∧ sampleBody.«end» = 20 ∧ sampleBody.overrides = none) :=
  ⟨(C9_start_params LogRateAnalysisType.dip (some sampleWindow) none (some 20)
      "q" none "logs" none 1 true).1 (Or.inr (Or.inl rfl)),
   (C9_start_params LogRateAnalysisType.spike (some sampleWindow) (some 10) (some 20)
      "q" none "logs" none 1 true).2 sampleWindow 10 20 sampleBody rfl rfl rfl rfl⟩

/-- C10: the `skippedFields` state starts as `null`, the initialization
effect assigns `fieldFilterSkippedItems` only while the state is still
`null` and the list is non-empty, and once the state is non-`null` the
effect never overwrites it. -/
theorem C10_skipped_fields_init (s : Option (List String)) (items : List String) :
    skippedFieldsInitialState = none ∧
    (s = none → items ≠ [] → initSkippedFieldsEffect s items = some items) ∧
    initSkippedFieldsEffect none [] = none ∧
    (s ≠ none → initSkippedFieldsEffect s items = s) := by
  refine ⟨rfl, ?_, rfl, ?_⟩
  · intro hs hitems
    subst hs
    unfold initSkippedFieldsEffect
    rw [if_pos ⟨rfl, by simpa [List.length_pos] using hitems⟩]
  · intro hs
    unfold initSkippedFieldsEffect
    rw [if_neg (fun hc => hs hc.1)]

/-- Witness for C10: the effect assigns on the uninitialized state and
leaves an initialized state untouched. -/
theorem C10_skipped_fields_init_witness :
    initSkippedFieldsEffect none ["field_b"] = some ["field_b"] ∧
    initSkippedFieldsEffect (some ["field_a"]) ["field_b"] = some ["field_a"] :=
  ⟨(C10_skipped_fields_init none ["field_b"]).2.1 rfl (by decide),
   (C10_skipped_fields_init (some ["field_a"]) ["field_b"]).2.2.2 (by decide)⟩
